import Mathlib

/-!
Verification of the rate-limiting / IP-blocking gate and the client-side
analytics queue of the `un-foggiano-nel-mondo` repository.

The definitions below are a shallow embedding of the JavaScript source:

* `checkRateLimit`, `upsertRateLimit`, `resetRateLimit` embed
  `DatabaseManager.checkRateLimit` and the prepared SQL statements
  `upsertRateLimit` / `resetRateLimit` of
  `src/frontend/js/backend/database/schema.js`.
* `isIPBlocked`, `blockIP`, `insertIPBlock`, `unblockIP` embed the
  IP-blocking methods of the same file.
* `incrementSuspiciousAttempts` embeds the volatile abuse counter of
  `src/frontend/js/backend/server.js`.
* `createIscrizione` and `handleIscrizione` embed the registration
  persistence and the `/api/iscrizione` handler.
* The `AnState` operations embed the `FoggianoAnalytics` event queue of
  `src/frontend/js/analytics/analytics.js`.

Timestamps are modelled as `Int` milliseconds (JavaScript `Date.getTime()`;
`toISOString` round-trips milliseconds exactly, so storing a timestamp as an
ISO string and parsing it back is the identity on the model).  The SQLite
tables are modelled as finite maps `String → Option record`, which is all
the prepared statements observe.
-/

/-- A row of the `rate_limits` table: `count`, `window_start`, `last_request`
(the `key` column is the map key; the autoincrement `id` is never read). -/
structure RateLimitRecord where
  count : Nat
  window_start : Int
  last_request : Int
deriving Repr, DecidableEq

/-- The `rate_limits` table, keyed by the UNIQUE `key` column. -/
def RLStore : Type := String → Option RateLimitRecord

/-- The result object of `DatabaseManager.checkRateLimit`. -/
structure RLResult where
  allowed : Bool
  remaining : Int
  retryAfter : Option Int
deriving Repr, DecidableEq

/-- The prepared statement `upsertRateLimit`:
`INSERT INTO rate_limits (key, count, window_start, last_request)
 VALUES (@key, 1, @window_start, @last_request)
 ON CONFLICT(key) DO UPDATE SET count = count + 1, last_request = @last_request`.
Note that on conflict `window_start` is NOT updated. -/
def upsertRateLimit (s : RLStore) (key : String) (window_start last_request : Int) :
    RLStore :=
  fun k =>
    if k = key then
      match s key with
      | none => some { count := 1, window_start := window_start,
                       last_request := last_request }
      | some r => some { count := r.count + 1, window_start := r.window_start,
                         last_request := last_request }
    else s k

/-- The prepared statement `resetRateLimit`:
`UPDATE rate_limits SET count = 1, window_start = ? WHERE key = ?`
(`last_request` is NOT updated). -/
def resetRateLimit (s : RLStore) (window_start : Int) (key : String) : RLStore :=
  fun k =>
    if k = key then
      (s key).map (fun r => { r with count := 1, window_start := window_start })
    else s k

/-- `DatabaseManager.checkRateLimit(key, maxRequests, windowMs)`.
`now` is the wall clock read at the top of the method
(`const now = new Date()`); the method computes
`windowStart = now - windowMs` and compares the stored `window_start`
against it with a strict `<`. -/
def checkRateLimit (s : RLStore) (now : Int) (key : String)
    (maxRequests : Nat) (windowMs : Int) : RLResult × RLStore :=
  let windowStart := now - windowMs
  match s key with
  | none =>
      ({ allowed := true, remaining := (maxRequests : Int) - 1, retryAfter := none },
       upsertRateLimit s key now now)
  | some existing =>
      if existing.window_start < windowStart then
        ({ allowed := true, remaining := (maxRequests : Int) - 1, retryAfter := none },
         resetRateLimit s now key)
      else if maxRequests ≤ existing.count then
        ({ allowed := false, remaining := 0,
           retryAfter := some (windowMs - (now - existing.window_start)) }, s)
      else
        ({ allowed := true,
           remaining := (maxRequests : Int) - (existing.count : Int) - 1,
           retryAfter := none },
         upsertRateLimit s key existing.window_start now)

/-- A row of the `ip_blocks` table (the `ip` column is the map key). -/
structure IPBlockRecord where
  blocked_at : Int
  blocked_until : Int
  reason : String
  attempts : Nat
deriving Repr, DecidableEq

/-- The `ip_blocks` table, keyed by the UNIQUE `ip` column. -/
def IPStore : Type := String → Option IPBlockRecord

/-- The result object of `DatabaseManager.isIPBlocked`. -/
structure IPBlockResult where
  blocked : Bool
  blockedUntil : Option Int
  reason : Option String
  attempts : Option Nat
deriving Repr, DecidableEq

/-- The prepared statement `insertIPBlock`:
`INSERT INTO ip_blocks (ip, blocked_until, reason, attempts)
 VALUES (@ip, @blocked_until, @reason, @attempts)
 ON CONFLICT(ip) DO UPDATE SET blocked_at = CURRENT_TIMESTAMP,
 blocked_until = @blocked_until, reason = @reason, attempts = attempts + 1`.
On a fresh insert `blocked_at` takes its `CURRENT_TIMESTAMP` default. -/
def insertIPBlock (s : IPStore) (now : Int) (ip : String)
    (blocked_until : Int) (reason : String) (attempts : Nat) : IPStore :=
  fun i =>
    if i = ip then
      match s ip with
      | none => some { blocked_at := now, blocked_until := blocked_until,
                       reason := reason, attempts := attempts }
      | some r => some { blocked_at := now, blocked_until := blocked_until,
                         reason := reason, attempts := r.attempts + 1 }
    else s i

/-- The prepared statement `deleteIPBlock`:
`DELETE FROM ip_blocks WHERE ip = ?`. -/
def deleteIPBlock (s : IPStore) (ip : String) : IPStore :=
  fun i => if i = ip then none else s i

/-- `DatabaseManager.isIPBlocked(ip)`: reads the record; if
`blocked_until < now` deletes it and reports not blocked, else reports
blocked with the record's fields. -/
def isIPBlocked (s : IPStore) (now : Int) (ip : String) : IPBlockResult × IPStore :=
  match s ip with
  | none => ({ blocked := false, blockedUntil := none, reason := none,
               attempts := none }, s)
  | some record =>
      if record.blocked_until < now then
        ({ blocked := false, blockedUntil := none, reason := none,
           attempts := none }, deleteIPBlock s ip)
      else
        ({ blocked := true, blockedUntil := some record.blocked_until,
           reason := some record.reason, attempts := some record.attempts }, s)

/-- `DatabaseManager.blockIP(ip, minutes, reason)`: computes
`blockedUntil = Date.now() + minutes * 60 * 1000`, runs `insertIPBlock`
with `attempts = 1`, returns `true`. -/
def blockIP (s : IPStore) (now : Int) (ip : String) (minutes : Nat)
    (reason : String) : Bool × IPStore :=
  let blockedUntil := now + (minutes : Int) * 60 * 1000
  (true, insertIPBlock s now ip blockedUntil reason 1)

/-- `DatabaseManager.unblockIP(ip)`: deletes the row, returns whether a row
was deleted. -/
def unblockIP (s : IPStore) (ip : String) : Bool × IPStore :=
  ((s ip).isSome, deleteIPBlock s ip)

example : (checkRateLimit (fun _ => none) 0 "k" 2 100).1.allowed = true := by decide

example :
    ((checkRateLimit (fun _ => none) 0 "k" 2 100).2 "k") =
      some { count := 1, window_start := 0, last_request := 0 } := by decide

/-- `MAX_SUSPICIOUS_ATTEMPTS` from `SECURITY_CONFIG` in
`src/frontend/js/backend/server.js`. -/
def MAX_SUSPICIOUS_ATTEMPTS : Nat := 5

/-- `IP_BLOCK_DURATION_MINUTES` from `SECURITY_CONFIG`. -/
def IP_BLOCK_DURATION_MINUTES : Nat := 30

/-- An entry of the volatile `ipAttempts` map of `server.js`. -/
structure SuspRecord where
  count : Nat
  lastAttempt : Int
deriving Repr, DecidableEq

/-- The process state touched by `incrementSuspiciousAttempts`: the volatile
`ipAttempts` map plus the durable `ip_blocks` table. -/
structure ServerSecurityState where
  ipAttempts : String → Option SuspRecord
  ipBlocks : IPStore

/-- `incrementSuspiciousAttempts(ip)` from `server.js`: fetches (or defaults)
the volatile record, increments `count`, sets `lastAttempt = Date.now()`,
stores it back; if `count >= MAX_SUSPICIOUS_ATTEMPTS` it calls
`blockIP(ip, IP_BLOCK_DURATION_MINUTES)` (which delegates to
`db.blockIP` with the default reason) and returns `true`, else `false`. -/
def incrementSuspiciousAttempts (st : ServerSecurityState) (now : Int)
    (ip : String) : Bool × ServerSecurityState :=
  let record := (st.ipAttempts ip).getD { count := 0, lastAttempt := 0 }
  let record : SuspRecord := { count := record.count + 1, lastAttempt := now }
  let ipAttempts' : String → Option SuspRecord :=
    fun i => if i = ip then some record else st.ipAttempts i
  if MAX_SUSPICIOUS_ATTEMPTS ≤ record.count then
    (true, { ipAttempts := ipAttempts',
             ipBlocks := (blockIP st.ipBlocks now ip IP_BLOCK_DURATION_MINUTES
                            "Troppi tentativi sospetti").2 })
  else
    (false, { ipAttempts := ipAttempts', ipBlocks := st.ipBlocks })

/-- A row of the `iscrizioni` table, with the columns written by
`DatabaseManager.createIscrizione` (`created_at` / `updated_at` /
`approved_*` take SQL defaults and are never read by the claims). -/
structure Iscrizione where
  id : String
  nome_squadra : String
  citta_squadra : String
  paese_squadra : String
  nome_capitano : String
  cognome_capitano : String
  email_capitano : String
  telefono_capitano : String
  data_nascita_capitano : String
  provincia_foggia : String
  numero_giocatori : Nat
  note : Option String
  status : String
  ip_address : Option String
  user_agent : Option String
deriving Repr, DecidableEq

/-- The result object of `DatabaseManager.createIscrizione`. -/
structure CreateResult where
  success : Bool
  id : Option String
  error : Option String
deriving Repr, DecidableEq

/-- `DatabaseManager.createIscrizione(data)`: runs `insertIscrizione`; the
table declares `id TEXT PRIMARY KEY` and `email_capitano TEXT NOT NULL
UNIQUE`, so the insert raises `SQLITE_CONSTRAINT_UNIQUE` exactly when an
existing row shares the id or the captain email, in which case the method
returns `{ success: false, error: 'Email già registrata' }` and the table
is unchanged; otherwise the row is inserted. -/
def createIscrizione (rows : List Iscrizione) (row : Iscrizione) :
    CreateResult × List Iscrizione :=
  if rows.any (fun r => r.email_capitano == row.email_capitano || r.id == row.id) then
    ({ success := false, id := none, error := some "Email già registrata" }, rows)
  else
    ({ success := true, id := some row.id, error := none }, rows ++ [row])

/-- The database state used by the `/api/iscrizione` handler: the
`rate_limits` table and the `iscrizioni` table. -/
structure DBState where
  rateLimits : RLStore
  iscrizioni : List Iscrizione

/-- A rate-limit gate invocation as observed from the handler:
(key, maxRequests, windowMs). -/
def GateCall : Type := String × Nat × Int

/-- The responses the `/api/iscrizione` handler can produce on the paths
involving the rate-limit gate and persistence (validation, email sending
and logging are outside the embedded fragment). -/
inductive HandlerResponse where
  | rateLimitedEmail
  | rateLimitedIP
  | badRequest (msg : String)
  | created (id : String)
deriving Repr, DecidableEq

/-- HTTP status of each `HandlerResponse` as sent by `server.js`
(429 for both rate-limit rejections, 400 for a failed insert, 200 for
success). -/
def HandlerResponse.status : HandlerResponse → Nat
  | .rateLimitedEmail => 429
  | .rateLimitedIP => 429
  | .badRequest _ => 400
  | .created _ => 200

/-- The `app.post('/api/iscrizione')` handler of `server.js`, from the point
where validation has passed: it calls
`db.checkRateLimit('email:' + email, 1, 3600000)` and returns 429 if denied;
otherwise calls `db.checkRateLimit('ip:' + ip, 3, 3600000)` and returns 429
if denied; otherwise calls `db.createIscrizione` and returns 400 on failure,
success otherwise.  The first component records the gate calls made, in
order. -/
def handleIscrizione (db : DBState) (now : Int) (email ip : String)
    (row : Iscrizione) : List GateCall × HandlerResponse × DBState :=
  let eCall : GateCall := ("email:" ++ email, 1, 3600000)
  let p1 := checkRateLimit db.rateLimits now ("email:" ++ email) 1 3600000
  if !p1.1.allowed then
    ([eCall], .rateLimitedEmail, { db with rateLimits := p1.2 })
  else
    let iCall : GateCall := ("ip:" ++ ip, 3, 3600000)
    let p2 := checkRateLimit p1.2 now ("ip:" ++ ip) 3 3600000
    if !p2.1.allowed then
      ([eCall, iCall], .rateLimitedIP, { db with rateLimits := p2.2 })
    else
      let c := createIscrizione db.iscrizioni row
      if c.1.success then
        ([eCall, iCall], .created row.id,
         { rateLimits := p2.2, iscrizioni := c.2 })
      else
        ([eCall, iCall], .badRequest ((c.1.error).getD "Errore"),
         { rateLimits := p2.2, iscrizioni := c.2 })

/-- A queued analytics event as built by `FoggianoAnalytics.queueEvent`:
the target endpoint, the (opaque) serialized payload, the retry counter
`attempts` (starts at 0) and `createdAt = Date.now()`. -/
structure AnEvent where
  endpoint : String
  data : String
  attempts : Nat
  createdAt : Int
deriving Repr, DecidableEq

/-- The `FoggianoAnalytics` configuration fields used by the queue
(defaults from the constructor). -/
structure AnConfig where
  batchSize : Nat := 10
  batchInterval : Nat := 5000
  retryAttempts : Nat := 3
  retryDelay : Nat := 1000
deriving Repr, DecidableEq

/-- A `navigator.sendBeacon` call: endpoint plus the `category`/`action`
of the payload. -/
structure BeaconMsg where
  endpoint : String
  category : String
  action : String
deriving Repr, DecidableEq

/-- The observable state of a `FoggianoAnalytics` instance: the two queues
and the online flag, plus the externally visible effects — `sent` logs every
`fetch` performed by `sendEvent` (a delivery attempt, successful or not),
`timers` logs every scheduled retry delay (`setTimeout` argument), and
`beacons` logs every `navigator.sendBeacon` call. -/
structure AnState where
  eventQueue : List AnEvent := []
  retryQueue : List AnEvent := []
  isOnline : Bool := true
  sent : List AnEvent := []
  timers : List Nat := []
  beacons : List BeaconMsg := []
deriving Repr, DecidableEq

/-- The initial state of a freshly constructed (online) instance. -/
def anInit : AnState := {}

/-- `FoggianoAnalytics.sendEvent(event)`: performs the `fetch` (logged in
`sent`; its success is the parameter `ok`).  On failure, if
`event.attempts < retryAttempts` then `event.attempts++`, the event is
pushed onto `retryQueue` and a retry is scheduled after
`retryDelay * event.attempts` (with the already-incremented `attempts`);
otherwise the event is dropped.  Returns whether delivery succeeded. -/
def sendEvent (cfg : AnConfig) (st : AnState) (ev : AnEvent) (ok : Bool) :
    Bool × AnState :=
  let st := { st with sent := st.sent ++ [ev] }
  if ok then (true, st)
  else if ev.attempts < cfg.retryAttempts then
    let ev' : AnEvent := { ev with attempts := ev.attempts + 1 }
    (false, { st with retryQueue := st.retryQueue ++ [ev'],
                      timers := st.timers ++ [cfg.retryDelay * ev'.attempts] })
  else (false, st)

/-- `FoggianoAnalytics.retryFailedEvents()`: snapshots `retryQueue`, empties
it, and sends each snapshot event in order (`ok` gives each delivery's
outcome).  Note: it does NOT consult `isOnline`. -/
def retryFailedEvents (cfg : AnConfig) (st : AnState) (ok : AnEvent → Bool) :
    AnState :=
  let events := st.retryQueue
  let st := { st with retryQueue := [] }
  events.foldl (fun s e => (sendEvent cfg s e (ok e)).2) st

/-- `FoggianoAnalytics.flushQueue()`: returns immediately if the queue is
empty or the client is offline; otherwise snapshots `eventQueue`, empties
it, and sends each snapshot event in order. -/
def flushQueue (cfg : AnConfig) (st : AnState) (ok : AnEvent → Bool) : AnState :=
  if st.eventQueue.isEmpty || !st.isOnline then st
  else
    let events := st.eventQueue
    let st := { st with eventQueue := [] }
    events.foldl (fun s e => (sendEvent cfg s e (ok e)).2) st

/-- `FoggianoAnalytics.queueEvent(endpoint, data)`: builds the event with
`attempts = 0` and `createdAt = now`, appends it to `eventQueue`, and
flushes immediately when `eventQueue.length >= batchSize`. -/
def queueEvent (cfg : AnConfig) (st : AnState) (endpoint payload : String)
    (now : Int) (ok : AnEvent → Bool) : AnState :=
  let ev : AnEvent := { endpoint := endpoint, data := payload,
                        attempts := 0, createdAt := now }
  let st := { st with eventQueue := st.eventQueue ++ [ev] }
  if cfg.batchSize ≤ st.eventQueue.length then flushQueue cfg st ok else st

/-- The `window 'online'` listener installed by `setupOnlineStatus`:
sets `isOnline = true`, then `flushQueue()`, then `retryFailedEvents()`. -/
def handleOnline (cfg : AnConfig) (st : AnState) (ok : AnEvent → Bool) : AnState :=
  let st := { st with isOnline := true }
  retryFailedEvents cfg (flushQueue cfg st ok) ok

/-- The `window 'offline'` listener installed by `setupOnlineStatus`:
sets `isOnline = false`. -/
def handleOffline (st : AnState) : AnState := { st with isOnline := false }

/-- `FoggianoAnalytics.sendBeacon(endpoint, data)`: a fire-and-forget
`navigator.sendBeacon` call; it touches neither queue. -/
def sendBeacon (st : AnState) (m : BeaconMsg) : AnState :=
  { st with beacons := st.beacons ++ [m] }

/-- `sendFinalData` from `setupUnloadTracking`: sends the session summary
(`category 'Session', action 'End'`, with duration, max scroll and funnel)
and the engagement score (`category 'Engagement', action 'Score'`), both
via `sendBeacon` on the `event` endpoint.  There is no sent-once guard. -/
def sendFinalData (st : AnState) : AnState :=
  let st := sendBeacon st { endpoint := "event", category := "Session", action := "End" }
  sendBeacon st { endpoint := "event", category := "Engagement", action := "Score" }

/-- The page lifecycle occurrences that reach the listeners installed by
`setupUnloadTracking`:  `beforeunload`, and `visibilitychange` with the
resulting visibility state. -/
inductive PageEvent where
  | visibilityHidden
  | visibilityVisible
  | beforeUnload
deriving Repr, DecidableEq

/-- Dispatch of one page lifecycle occurrence to the `setupUnloadTracking`
listeners: `beforeunload` calls `sendFinalData`; `visibilitychange` calls it
exactly when the new state is `hidden`. -/
def handlePageEvent (st : AnState) : PageEvent → AnState
  | .visibilityHidden => sendFinalData st
  | .visibilityVisible => st
  | .beforeUnload => sendFinalData st

/-- Whether a beacon message is the final session summary. -/
def isSessionEnd (m : BeaconMsg) : Bool :=
  m.category == "Session" && m.action == "End"

/-- Whether a page occurrence triggers `sendFinalData` (a hide or an
unload). -/
def isHideOrUnload (e : PageEvent) : Bool :=
  e == PageEvent.visibilityHidden || e == PageEvent.beforeUnload

/-- Driver for the all-failures retry scenario: repeatedly fire the
scheduled `retryFailedEvents` timer (every delivery failing) until the
retry queue is empty, with fuel bounding the number of timer firings. -/
def retryLoopAllFail (cfg : AnConfig) : Nat → AnState → AnState
  | 0, st => st
  | fuel + 1, st =>
      if st.retryQueue.isEmpty then st
      else retryLoopAllFail cfg fuel (retryFailedEvents cfg st (fun _ => false))

/-- The write `checkRateLimit` issues after its read: nothing (deny path),
the fresh-key upsert, the window reset, or the in-window upsert bump. -/
inductive RLWrite where
  | wNone
  | wInsert (window_start last_request : Int)
  | wReset (window_start : Int)
  | wBump (window_start last_request : Int)
deriving Repr, DecidableEq

/-- The decision phase of `checkRateLimit`: a pure function of the value
read by `getRateLimit` and the clock, yielding the result object and the
write to issue. -/
def rlDecide (existing : Option RateLimitRecord) (now : Int)
    (maxRequests : Nat) (windowMs : Int) : RLResult × RLWrite :=
  match existing with
  | none =>
      ({ allowed := true, remaining := (maxRequests : Int) - 1, retryAfter := none },
       .wInsert now now)
  | some existing =>
      if existing.window_start < now - windowMs then
        ({ allowed := true, remaining := (maxRequests : Int) - 1, retryAfter := none },
         .wReset now)
      else if maxRequests ≤ existing.count then
        ({ allowed := false, remaining := 0,
           retryAfter := some (windowMs - (now - existing.window_start)) }, .wNone)
      else
        ({ allowed := true,
           remaining := (maxRequests : Int) - (existing.count : Int) - 1,
           retryAfter := none },
         .wBump existing.window_start now)

/-- The write phase of `checkRateLimit`: each branch's SQL statement. -/
def rlApply (s : RLStore) (key : String) : RLWrite → RLStore
  | .wNone => s
  | .wInsert ws lr => upsertRateLimit s key ws lr
  | .wReset ws => resetRateLimit s ws key
  | .wBump ws lr => upsertRateLimit s key ws lr

/-- Two `checkRateLimit` calls on the same key whose read and write steps
interleave as read-A, read-B, write-A, write-B (each step is one SQL
statement, which is the actual granularity of the implementation — there is
no enclosing transaction). -/
def interleavedTwo (s : RLStore) (nowA nowB : Int) (key : String)
    (maxRequests : Nat) (windowMs : Int) : RLResult × RLResult × RLStore :=
  let exA := s key
  let exB := s key
  let pA := rlDecide exA nowA maxRequests windowMs
  let pB := rlDecide exB nowB maxRequests windowMs
  let s1 := rlApply s key pA.2
  let s2 := rlApply s1 key pB.2
  (pA.1, pB.1, s2)

/-- A sequence of `checkRateLimit` calls on one key, threading the store;
returns the list of results and the final store. -/
def runCalls (k : String) (m : Nat) (w : Int) :
    RLStore → List Int → List RLResult × RLStore
  | s, [] => ([], s)
  | s, t :: ts =>
      let p := checkRateLimit s t k m w
      let q := runCalls k m w p.2 ts
      (p.1 :: q.1, q.2)

/-- Branch lemma: `checkRateLimit` on an absent key inserts a fresh record
with `count = 1`, `window_start = last_request = now`, and allows. -/
theorem checkRateLimit_fresh_eq (s : RLStore) (now : Int) (k : String)
    (m : Nat) (w : Int) (hk : s k = none) :
    checkRateLimit s now k m w =
      ({ allowed := true, remaining := (m : Int) - 1, retryAfter := none },
       upsertRateLimit s k now now) := by
  simp [checkRateLimit, hk]

/-- Branch lemma: on an expired window (strictly older than `now - w`) the
record is reset and the call allows. -/
theorem checkRateLimit_reset_eq (s : RLStore) (now : Int) (k : String)
    (m : Nat) (w : Int) (r : RateLimitRecord) (hk : s k = some r)
    (hwin : r.window_start < now - w) :
    checkRateLimit s now k m w =
      ({ allowed := true, remaining := (m : Int) - 1, retryAfter := none },
       resetRateLimit s now k) := by
  simp [checkRateLimit, hk, hwin]

/-- Branch lemma: within the window with a saturated count, the call denies
with `remaining = 0` and `retryAfter = w - (now - window_start)`, leaving
the store unchanged. -/
theorem checkRateLimit_deny_eq (s : RLStore) (now : Int) (k : String)
    (m : Nat) (w : Int) (r : RateLimitRecord) (hk : s k = some r)
    (hwin : ¬ r.window_start < now - w) (hc : m ≤ r.count) :
    checkRateLimit s now k m w =
      ({ allowed := false, remaining := 0,
         retryAfter := some (w - (now - r.window_start)) }, s) := by
  simp [checkRateLimit, hk, hwin, hc]

/-- Branch lemma: within the window with spare capacity, the call allows
and bumps the count, keeping `window_start`. -/
theorem checkRateLimit_bump_eq (s : RLStore) (now : Int) (k : String)
    (m : Nat) (w : Int) (r : RateLimitRecord) (hk : s k = some r)
    (hwin : ¬ r.window_start < now - w) (hc : ¬ m ≤ r.count) :
    checkRateLimit s now k m w =
      ({ allowed := true, remaining := (m : Int) - (r.count : Int) - 1,
         retryAfter := none },
       upsertRateLimit s k r.window_start now) := by
  simp [checkRateLimit, hk, hwin, hc]

/-- The upsert on a present key bumps the count and keeps `window_start`. -/
theorem upsertRateLimit_present (s : RLStore) (k : String) (ws lr : Int)
    (r : RateLimitRecord) (hk : s k = some r) :
    upsertRateLimit s k ws lr k =
      some { count := r.count + 1, window_start := r.window_start,
             last_request := lr } := by
  simp [upsertRateLimit, hk]

/-- The upsert on an absent key inserts count 1. -/
theorem upsertRateLimit_absent (s : RLStore) (k : String) (ws lr : Int)
    (hk : s k = none) :
    upsertRateLimit s k ws lr k =
      some { count := 1, window_start := ws, last_request := lr } := by
  simp [upsertRateLimit, hk]

/-- Chain lemma: starting from a record `⟨c, ws, lr⟩` for key `k`, a list of
calls all landing inside the window `[ws, ws + w)` is entirely allowed as
long as the count stays within `m`, and afterwards the record holds
`count = c + ts.length` with `window_start` still `ws`. -/
theorem runCalls_within (k : String) (m : Nat) (w : Int) :
    ∀ (ts : List Int) (s : RLStore) (c : Nat) (ws lr : Int),
      s k = some { count := c, window_start := ws, last_request := lr } →
      (∀ t ∈ ts, ws ≤ t ∧ t - ws < w) →
      c + ts.length ≤ m →
      ((runCalls k m w s ts).1.all fun r => r.allowed) = true ∧
      (runCalls k m w s ts).2 k =
        some { count := c + ts.length, window_start := ws,
               last_request := ts.getLastD lr } := by
  intro ts
  induction ts with
  | nil =>
      intro s c ws lr hk _ _
      simpa [runCalls] using hk
  | cons t ts ih =>
      intro s c ws lr hk hts hcnt
      obtain ⟨ht1, ht2⟩ := hts t (List.mem_cons_self t ts)
      have hwin : ¬ ({ count := c, window_start := ws, last_request := lr } :
          RateLimitRecord).window_start < t - w := by
        show ¬ ws < t - w
        omega
      have hc : ¬ m ≤ ({ count := c, window_start := ws, last_request := lr } :
          RateLimitRecord).count := by
        show ¬ m ≤ c
        simp only [List.length_cons] at hcnt
        omega
      have hstep := checkRateLimit_bump_eq s t k m w _ hk hwin hc
      have hk' : (checkRateLimit s t k m w).2 k =
          some { count := c + 1, window_start := ws, last_request := t } := by
        rw [hstep]
        simpa using upsertRateLimit_present s k ws t _ hk
      have hts' : ∀ u ∈ ts, ws ≤ u ∧ u - ws < w := fun u hu => hts u (by simp [hu])
      have hcnt' : (c + 1) + ts.length ≤ m := by
        simp only [List.length_cons] at hcnt
        omega
      obtain ⟨hall, hfin⟩ := ih (checkRateLimit s t k m w).2 (c + 1) ws t hk' hts' hcnt'
      refine ⟨?_, ?_⟩
      · simp only [runCalls, List.all_cons, hall, Bool.and_true]
        rw [hstep]
      · simp only [runCalls]
        rw [hfin, List.getLastD_cons]
        have hlen : c + (t :: ts).length = c + 1 + ts.length := by
          simp only [List.length_cons]
          omega
        rw [hlen]

/-- Claim C1: for every key `k`, `maxRequests ≥ 1` and `windowMs > 0`,
starting from a store with no record for `k`, a sequence of exactly
`maxRequests` calls to `checkRateLimit(k, maxRequests, windowMs)` all
falling within one window (the window opened by the first call at `t0`)
returns `allowed = true` for each call, and the `(maxRequests+1)`-th call
within the same window returns `allowed = false` with `remaining = 0` and
`retryAfter = windowMs - (tLast - t0) > 0`. -/
theorem claim_C1_window_admits_max_then_denies
    (k : String) (m : Nat) (w t0 tLast : Int) (ts : List Int) (s0 : RLStore)
    (hm : 1 ≤ m) (hw : 0 < w) (hfresh : s0 k = none)
    (hts : ∀ t ∈ ts, t0 ≤ t ∧ t - t0 < w)
    (hlen : ts.length = m - 1)
    (hl1 : t0 ≤ tLast) (hl2 : tLast - t0 < w) :
    (checkRateLimit s0 t0 k m w).1.allowed = true ∧
    ((runCalls k m w (checkRateLimit s0 t0 k m w).2 ts).1.all fun r => r.allowed) = true ∧
    (checkRateLimit (runCalls k m w (checkRateLimit s0 t0 k m w).2 ts).2 tLast k m w).1 =
      { allowed := false, remaining := 0, retryAfter := some (w - (tLast - t0)) } ∧
    0 < w - (tLast - t0) := by
  have h1 := checkRateLimit_fresh_eq s0 t0 k m w hfresh
  have hk1 : (checkRateLimit s0 t0 k m w).2 k =
      some { count := 1, window_start := t0, last_request := t0 } := by
    rw [h1]
    exact upsertRateLimit_absent s0 k t0 t0 hfresh
  obtain ⟨hall, hfin⟩ :=
    runCalls_within k m w ts (checkRateLimit s0 t0 k m w).2 1 t0 t0 hk1 hts (by omega)
  have hcount : 1 + ts.length = m := by omega
  rw [hcount] at hfin
  have hdeny := checkRateLimit_deny_eq _ tLast k m w _ hfin
    (by show ¬ t0 < tLast - w; omega) (by show m ≤ m; omega)
  refine ⟨by rw [h1], hall, ?_, by omega⟩
  rw [hdeny]

/-- Witness for C1 at `m = 2`, `w = 100`, calls at times 0, 10 and a third
call at 50, all inside the window opened at 0. -/
theorem claim_C1_window_admits_max_then_denies_witness :
    ((1 ≤ 2 ∧ (0 : Int) < 100 ∧ (fun _ => none : RLStore) "k" = none) ∧
     (checkRateLimit
        (runCalls "k" 2 100 (checkRateLimit (fun _ => none) 0 "k" 2 100).2 [10]).2
        50 "k" 2 100).1 =
      { allowed := false, remaining := 0, retryAfter := some (100 - (50 - 0)) }) :=
  ⟨⟨by decide, by decide, rfl⟩,
   (claim_C1_window_admits_max_then_denies "k" 2 100 0 50 [10] (fun _ => none)
      (by decide) (by decide) rfl (by norm_num) (by decide) (by decide)
      (by decide)).2.2.1⟩

/-- Claim C2 counterexample: with a record `⟨count 1, window_start 0⟩` and a
call at `now = 1000` with `windowMs = 1000` and `maxRequests = 1`, the
elapsed time equals exactly `windowMs`, yet the call does NOT reset the
record: it returns `allowed = false` and leaves the record unchanged
(`count = 1`, `window_start = 0`), because the code tests
`existingWindowStart < now - windowMs` strictly. -/
theorem claim_C2_boundary_counterexample :
    (checkRateLimit
        (fun k => if k = "k" then
            some { count := 1, window_start := 0, last_request := 0 } else none)
        1000 "k" 1 1000).1.allowed = false ∧
    ((checkRateLimit
        (fun k => if k = "k" then
            some { count := 1, window_start := 0, last_request := 0 } else none)
        1000 "k" 1 1000).2 "k") =
      some { count := 1, window_start := 0, last_request := 0 } := by
  exact ⟨rfl, rfl⟩

/-- Claim C2, amended: the window is treated as expired only when
`now - windowStart` is STRICTLY greater than `windowMs`; then the call
resets the record (`count = 1`, `window_start = now`, previous count
forgotten, `last_request` untouched) and returns allowed.  In the boundary
case `now - windowStart = windowMs` the record is not reset: a saturated
record is denied, with `retryAfter = 0`. -/
theorem claim_C2_amended_strict_reset :
    (∀ (s : RLStore) (k : String) (r : RateLimitRecord) (m : Nat) (w now : Int),
        s k = some r → w < now - r.window_start →
        (checkRateLimit s now k m w).1.allowed = true ∧
        (checkRateLimit s now k m w).2 k =
          some { count := 1, window_start := now,
                 last_request := r.last_request }) ∧
    (∀ (s : RLStore) (k : String) (r : RateLimitRecord) (m : Nat) (w now : Int),
        s k = some r → now - r.window_start = w → m ≤ r.count →
        checkRateLimit s now k m w =
          ({ allowed := false, remaining := 0, retryAfter := some 0 }, s)) := by
  constructor
  · intro s k r m w now hk hgt
    have h := checkRateLimit_reset_eq s now k m w r hk (by omega)
    refine ⟨by rw [h], ?_⟩
    rw [h]
    simp [resetRateLimit, hk]
  · intro s k r m w now hk heq hc
    have h := checkRateLimit_deny_eq s now k m w r hk (by omega) hc
    have hz : w - (now - r.window_start) = 0 := by omega
    rw [h, hz]

/-- Witness for the amended C2: a strict-expiry call at `now = 1001` on a
window opened at 0 with `windowMs = 1000` resets to `count 1`, and a
boundary call at `now = 1000` on a saturated record is denied with
`retryAfter = 0`. -/
theorem claim_C2_amended_strict_reset_witness :
    ((checkRateLimit
        (fun k => if k = "k" then
            some { count := 3, window_start := 0, last_request := 7 } else none)
        1001 "k" 5 1000).1.allowed = true ∧
     (checkRateLimit
        (fun k => if k = "k" then
            some { count := 3, window_start := 0, last_request := 7 } else none)
        1001 "k" 5 1000).2 "k" =
      some { count := 1, window_start := 1001, last_request := 7 }) ∧
    checkRateLimit
        (fun k => if k = "k" then
            some { count := 1, window_start := 0, last_request := 0 } else none)
        1000 "k" 1 1000 =
      ({ allowed := false, remaining := 0, retryAfter := some 0 },
       fun k => if k = "k" then
          some { count := 1, window_start := 0, last_request := 0 } else none) :=
  ⟨claim_C2_amended_strict_reset.1 _ "k"
      { count := 3, window_start := 0, last_request := 7 } 5 1000 1001
      (by decide) (by decide),
   claim_C2_amended_strict_reset.2 _ "k"
      { count := 1, window_start := 0, last_request := 0 } 1 1000 1000
      (by decide) (by decide) (by decide)⟩

/-- After `blockIP`, the stored record for `ip` has
`blocked_until = now + minutes * 60 * 1000` (whether the row was fresh or
re-blocked). -/
theorem blockIP_lookup (s : IPStore) (now : Int) (ip : String) (m : Nat)
    (reason : String) :
    ∃ a : Nat, (blockIP s now ip m reason).2 ip =
      some { blocked_at := now, blocked_until := now + (m : Int) * 60 * 1000,
             reason := reason, attempts := a } := by
  cases h0 : s ip with
  | none => exact ⟨1, by simp [blockIP, insertIPBlock, h0]⟩
  | some r => exact ⟨r.attempts + 1, by simp [blockIP, insertIPBlock, h0]⟩

/-- Claim C3: `blockIP(ip, m)` (m > 0) followed immediately by
`isIPBlocked(ip)` reports blocked; once the clock is past the stored
`blockedUntil`, `isIPBlocked(ip)` reports not blocked and deletes the
record, and a second `isIPBlocked(ip)` also reports not blocked and leaves
the store untouched (lazy expiry is idempotent). -/
theorem claim_C3_block_then_lazy_expiry
    (s0 : IPStore) (ip reason : String) (m : Nat) (now now2 : Int)
    (s1 : IPStore) (hm : 0 < m)
    (hs1 : s1 = (blockIP s0 now ip m reason).2)
    (h2 : now + (m : Int) * 60 * 1000 < now2) :
    ((isIPBlocked s1 now ip).1.blocked = true ∧ (isIPBlocked s1 now ip).2 = s1) ∧
    ((isIPBlocked s1 now2 ip).1.blocked = false ∧
     (isIPBlocked s1 now2 ip).2 ip = none) ∧
    ((isIPBlocked (isIPBlocked s1 now2 ip).2 now2 ip).1.blocked = false ∧
     (isIPBlocked (isIPBlocked s1 now2 ip).2 now2 ip).2 = (isIPBlocked s1 now2 ip).2) := by
  obtain ⟨a, hv⟩ := blockIP_lookup s0 now ip m reason
  rw [← hs1] at hv
  have hnot : ¬ (now + (m : Int) * 60 * 1000 < now) := by omega
  have hexp : isIPBlocked s1 now2 ip =
      ({ blocked := false, blockedUntil := none, reason := none,
         attempts := none }, deleteIPBlock s1 ip) := by
    simp [isIPBlocked, hv, h2]
  have hdel : (deleteIPBlock s1 ip) ip = none := by simp [deleteIPBlock]
  refine ⟨⟨?_, ?_⟩, ⟨?_, ?_⟩, ⟨?_, ?_⟩⟩
  · simp [isIPBlocked, hv, hnot]
  · simp [isIPBlocked, hv, hnot]
  · rw [hexp]
  · rw [hexp]
    exact hdel
  · rw [hexp]
    simp [isIPBlocked, hdel]
  · rw [hexp]
    simp [isIPBlocked, hdel]

/-- Witness for C3: block `1.2.3.4` for 30 minutes at time 0, query at time
0 and again at `30 * 60000 + 1`. -/
theorem claim_C3_block_then_lazy_expiry_witness :
    (0 < 30 ∧ (0 : Int) + (30 : Nat) * 60 * 1000 < 1800001) ∧
    ((isIPBlocked ((blockIP (fun _ => none) 0 "1.2.3.4" 30 "test").2) 0 "1.2.3.4").1.blocked
        = true ∧
     (isIPBlocked ((blockIP (fun _ => none) 0 "1.2.3.4" 30 "test").2)
        1800001 "1.2.3.4").1.blocked = false ∧
     (isIPBlocked ((blockIP (fun _ => none) 0 "1.2.3.4" 30 "test").2)
        1800001 "1.2.3.4").2 "1.2.3.4" = none) :=
  have h := claim_C3_block_then_lazy_expiry (fun _ => none) "1.2.3.4" "test"
    30 0 1800001 _ (by decide) rfl (by norm_num)
  ⟨⟨by decide, by norm_num⟩, h.1.1, h.2.1.1, h.2.1.2⟩

/-- Claim C4: each `incrementSuspiciousAttempts(ip)` call bumps that ip's
volatile counter to `c` (the previous count plus one) and stamps
`lastAttempt = now`; it returns `true` exactly when `c ≥
MAX_SUSPICIOUS_ATTEMPTS` (5), in which case a durable 30-minute block
record is written (`blocked_until = now + 30 * 60 * 1000`); the volatile
counter is NOT reset when the block is created; and when the ip already
has a durable record, re-blocking bumps its `attempts` field and refreshes
`blocked_until`, while a fresh record starts with `attempts = 1`. -/
theorem claim_C4_abuse_escalation (st : ServerSecurityState) (now : Int)
    (ip : String) (c : Nat)
    (hc : c = ((st.ipAttempts ip).getD { count := 0, lastAttempt := 0 }).count + 1) :
    ((incrementSuspiciousAttempts st now ip).1 = true ↔
       MAX_SUSPICIOUS_ATTEMPTS ≤ c) ∧
    (incrementSuspiciousAttempts st now ip).2.ipAttempts ip =
      some { count := c, lastAttempt := now } ∧
    (c < MAX_SUSPICIOUS_ATTEMPTS →
       (incrementSuspiciousAttempts st now ip).2.ipBlocks = st.ipBlocks) ∧
    (MAX_SUSPICIOUS_ATTEMPTS ≤ c →
       (st.ipBlocks ip = none →
          (incrementSuspiciousAttempts st now ip).2.ipBlocks ip =
            some { blocked_at := now, blocked_until := now + 30 * 60 * 1000,
                   reason := "Troppi tentativi sospetti", attempts := 1 }) ∧
       (∀ old, st.ipBlocks ip = some old →
          (incrementSuspiciousAttempts st now ip).2.ipBlocks ip =
            some { blocked_at := now, blocked_until := now + 30 * 60 * 1000,
                   reason := "Troppi tentativi sospetti",
                   attempts := old.attempts + 1 })) := by
  subst hc
  by_cases h5 : MAX_SUSPICIOUS_ATTEMPTS ≤
      ((st.ipAttempts ip).getD { count := 0, lastAttempt := 0 }).count + 1
  · refine ⟨by simp [incrementSuspiciousAttempts, h5], ?_, ?_, ?_⟩
    · simp [incrementSuspiciousAttempts, h5]
    · intro hlt
      omega
    · intro _
      refine ⟨?_, ?_⟩
      · intro hb
        simp [incrementSuspiciousAttempts, h5, blockIP, insertIPBlock, hb,
              IP_BLOCK_DURATION_MINUTES]
      · intro old hb
        simp [incrementSuspiciousAttempts, h5, blockIP, insertIPBlock, hb,
              IP_BLOCK_DURATION_MINUTES]
  · refine ⟨by simp [incrementSuspiciousAttempts, h5], ?_, ?_, ?_⟩
    · simp [incrementSuspiciousAttempts, h5]
    · intro _
      simp [incrementSuspiciousAttempts, h5]
    · intro hge
      omega

/-- Witness for C4: the fifth attempt from `9.9.9.9` (previous volatile
count 4, one prior durable block with `attempts = 2`) returns `true`,
keeps the volatile counter at 5, and bumps the durable record to
`attempts = 3` with a refreshed 30-minute `blocked_until`. -/
theorem claim_C4_abuse_escalation_witness :
    ((incrementSuspiciousAttempts
        { ipAttempts := fun i => if i = "9.9.9.9" then
            some { count := 4, lastAttempt := 0 } else none,
          ipBlocks := fun i => if i = "9.9.9.9" then
            some { blocked_at := -5, blocked_until := 100,
                   reason := "old", attempts := 2 } else none }
        1000 "9.9.9.9").1 = true) ∧
    ((incrementSuspiciousAttempts
        { ipAttempts := fun i => if i = "9.9.9.9" then
            some { count := 4, lastAttempt := 0 } else none,
          ipBlocks := fun i => if i = "9.9.9.9" then
            some { blocked_at := -5, blocked_until := 100,
                   reason := "old", attempts := 2 } else none }
        1000 "9.9.9.9").2.ipAttempts "9.9.9.9" =
      some { count := 5, lastAttempt := 1000 }) ∧
    ((incrementSuspiciousAttempts
        { ipAttempts := fun i => if i = "9.9.9.9" then
            some { count := 4, lastAttempt := 0 } else none,
          ipBlocks := fun i => if i = "9.9.9.9" then
            some { blocked_at := -5, blocked_until := 100,
                   reason := "old", attempts := 2 } else none }
        1000 "9.9.9.9").2.ipBlocks "9.9.9.9" =
      some { blocked_at := 1000, blocked_until := 1000 + 30 * 60 * 1000,
             reason := "Troppi tentativi sospetti", attempts := 3 }) :=
  have h := claim_C4_abuse_escalation
    { ipAttempts := fun i => if i = "9.9.9.9" then
        some { count := 4, lastAttempt := 0 } else none,
      ipBlocks := fun i => if i = "9.9.9.9" then
        some { blocked_at := -5, blocked_until := 100,
               reason := "old", attempts := 2 } else none }
    1000 "9.9.9.9" 5 (by decide)
  ⟨h.1.mpr (by decide), h.2.1,
   (h.2.2.2 (by decide)).2
     { blocked_at := -5, blocked_until := 100, reason := "old", attempts := 2 }
     (by decide)⟩

/-- Claim C10: a registration whose captain email matches an already-stored
registration makes `createIscrizione` return
`{ success: false, error: 'Email già registrata' }` with the table
unchanged — no row inserted, no row modified — because `email_capitano` is
declared UNIQUE (and the rejection does not depend on time, so it persists
after any rate-limit window expires). -/
theorem claim_C10_unique_email (rows : List Iscrizione) (row prev : Iscrizione)
    (hmem : prev ∈ rows) (heq : prev.email_capitano = row.email_capitano) :
    createIscrizione rows row =
      ({ success := false, id := none, error := some "Email già registrata" },
       rows) := by
  have hany : (rows.any fun r =>
      r.email_capitano == row.email_capitano || r.id == row.id) = true := by
    rw [List.any_eq_true]
    exact ⟨prev, hmem, by simp [heq]⟩
  simp [createIscrizione, hany]

/-- Witness for C10 on a one-row table whose stored registration shares the
captain email with the incoming one. -/
theorem claim_C10_unique_email_witness :
    createIscrizione
        [{ id := "id0", nome_squadra := "A", citta_squadra := "B",
           paese_squadra := "C", nome_capitano := "D", cognome_capitano := "E",
           email_capitano := "x@y.com", telefono_capitano := "1",
           data_nascita_capitano := "2000-01-01", provincia_foggia := "no",
           numero_giocatori := 11, note := none, status := "pending",
           ip_address := none, user_agent := none }]
        { id := "id1", nome_squadra := "Z", citta_squadra := "B",
          paese_squadra := "C", nome_capitano := "D", cognome_capitano := "E",
          email_capitano := "x@y.com", telefono_capitano := "2",
          data_nascita_capitano := "2001-01-01", provincia_foggia := "no",
          numero_giocatori := 11, note := none, status := "pending",
          ip_address := none, user_agent := none } =
      ({ success := false, id := none, error := some "Email già registrata" },
       [{ id := "id0", nome_squadra := "A", citta_squadra := "B",
          paese_squadra := "C", nome_capitano := "D", cognome_capitano := "E",
          email_capitano := "x@y.com", telefono_capitano := "1",
          data_nascita_capitano := "2000-01-01", provincia_foggia := "no",
          numero_giocatori := 11, note := none, status := "pending",
          ip_address := none, user_agent := none }]) :=
  claim_C10_unique_email _ _ _ (List.mem_singleton.mpr rfl) rfl

/-- Claim C5 counterexample: when the email-scoped gate denies (here the
key `email:a@b.c` already has `count = 1` in the current hour window), the
`/api/iscrizione` handler makes only ONE rate-limit gate call — the
IP-scoped gate is never consulted — so the handler does not call the gate
exactly twice for every submission.  (The 429 rejection and the absence of
a new registration do hold on this path.) -/
theorem claim_C5_single_call_counterexample :
    (handleIscrizione
        { rateLimits := fun k => if k = "email:a@b.c" then
            some { count := 1, window_start := 0, last_request := 0 } else none,
          iscrizioni := [] }
        1000 "a@b.c" "1.2.3.4"
        { id := "id1", nome_squadra := "Z", citta_squadra := "B",
          paese_squadra := "C", nome_capitano := "D", cognome_capitano := "E",
          email_capitano := "a@b.c", telefono_capitano := "2",
          data_nascita_capitano := "2001-01-01", provincia_foggia := "no",
          numero_giocatori := 11, note := none, status := "pending",
          ip_address := none, user_agent := none }).1.length = 1 ∧
    (handleIscrizione
        { rateLimits := fun k => if k = "email:a@b.c" then
            some { count := 1, window_start := 0, last_request := 0 } else none,
          iscrizioni := [] }
        1000 "a@b.c" "1.2.3.4"
        { id := "id1", nome_squadra := "Z", citta_squadra := "B",
          paese_squadra := "C", nome_capitano := "D", cognome_capitano := "E",
          email_capitano := "a@b.c", telefono_capitano := "2",
          data_nascita_capitano := "2001-01-01", provincia_foggia := "no",
          numero_giocatori := 11, note := none, status := "pending",
          ip_address := none, user_agent := none }).2.1 =
      .rateLimitedEmail ∧
    (1 : Nat) ≠ 2 := by
  refine ⟨by decide, by decide, by decide⟩

/-- Claim C5, amended: the handler consults the rate-limit gate AT MOST
twice — first with key `email:<submitter email>` and limit 1 per
3600000 ms; only if that call allows does it consult the gate with key
`ip:<caller ip>` and limit 3 per 3600000 ms.  The registration is
persisted only if both calls allow; if either denies, the handler replies
with a 429 response and no registration is created (on an email-gate
denial only one gate call is made). -/
theorem claim_C5_amended_gate_sequence (db : DBState) (now : Int)
    (email ip : String) (row : Iscrizione) :
    ((checkRateLimit db.rateLimits now ("email:" ++ email) 1 3600000).1.allowed
        = false →
       (handleIscrizione db now email ip row).1 =
         [("email:" ++ email, 1, 3600000)] ∧
       (handleIscrizione db now email ip row).2.1 = .rateLimitedEmail ∧
       (handleIscrizione db now email ip row).2.1.status = 429 ∧
       (handleIscrizione db now email ip row).2.2.iscrizioni = db.iscrizioni) ∧
    ((checkRateLimit db.rateLimits now ("email:" ++ email) 1 3600000).1.allowed
        = true →
       (handleIscrizione db now email ip row).1 =
         [("email:" ++ email, 1, 3600000), ("ip:" ++ ip, 3, 3600000)] ∧
       ((checkRateLimit
            (checkRateLimit db.rateLimits now ("email:" ++ email) 1 3600000).2
            now ("ip:" ++ ip) 3 3600000).1.allowed = false →
          (handleIscrizione db now email ip row).2.1 = .rateLimitedIP ∧
          (handleIscrizione db now email ip row).2.1.status = 429 ∧
          (handleIscrizione db now email ip row).2.2.iscrizioni =
            db.iscrizioni) ∧
       ((checkRateLimit
            (checkRateLimit db.rateLimits now ("email:" ++ email) 1 3600000).2
            now ("ip:" ++ ip) 3 3600000).1.allowed = true →
          (handleIscrizione db now email ip row).2.2.iscrizioni =
            (createIscrizione db.iscrizioni row).2)) := by
  constructor
  · intro h1
    simp [handleIscrizione, h1, HandlerResponse.status]
  · intro h1
    refine ⟨?_, ?_, ?_⟩
    · by_cases h2 : (checkRateLimit
          (checkRateLimit db.rateLimits now ("email:" ++ email) 1 3600000).2
          now ("ip:" ++ ip) 3 3600000).1.allowed = true
      · simp [handleIscrizione, h1, h2]
        split <;> rfl
      · simp only [Bool.not_eq_true] at h2
        simp [handleIscrizione, h1, h2]
    · intro h2
      simp [handleIscrizione, h1, h2, HandlerResponse.status]
    · intro h2
      simp [handleIscrizione, h1, h2]
      split <;> rfl

/-- Witness for the amended C5: on an empty store both gate calls are made
and the registration is persisted; on a store whose email key is saturated
only the email gate call is made and the reply is a 429. -/
theorem claim_C5_amended_gate_sequence_witness :
    ((handleIscrizione { rateLimits := fun _ => none, iscrizioni := [] }
        0 "a@b.c" "1.2.3.4"
        { id := "id1", nome_squadra := "Z", citta_squadra := "B",
          paese_squadra := "C", nome_capitano := "D", cognome_capitano := "E",
          email_capitano := "a@b.c", telefono_capitano := "2",
          data_nascita_capitano := "2001-01-01", provincia_foggia := "no",
          numero_giocatori := 11, note := none, status := "pending",
          ip_address := none, user_agent := none }).1 =
       [("email:" ++ "a@b.c", 1, 3600000), ("ip:" ++ "1.2.3.4", 3, 3600000)] ∧
     (handleIscrizione { rateLimits := fun _ => none, iscrizioni := [] }
        0 "a@b.c" "1.2.3.4"
        { id := "id1", nome_squadra := "Z", citta_squadra := "B",
          paese_squadra := "C", nome_capitano := "D", cognome_capitano := "E",
          email_capitano := "a@b.c", telefono_capitano := "2",
          data_nascita_capitano := "2001-01-01", provincia_foggia := "no",
          numero_giocatori := 11, note := none, status := "pending",
          ip_address := none, user_agent := none }).2.2.iscrizioni =
       (createIscrizione []
        { id := "id1", nome_squadra := "Z", citta_squadra := "B",
          paese_squadra := "C", nome_capitano := "D", cognome_capitano := "E",
          email_capitano := "a@b.c", telefono_capitano := "2",
          data_nascita_capitano := "2001-01-01", provincia_foggia := "no",
          numero_giocatori := 11, note := none, status := "pending",
          ip_address := none, user_agent := none }).2) ∧
    ((handleIscrizione
        { rateLimits := fun k => if k = "email:c@d.e" then
            some { count := 1, window_start := 0, last_request := 0 } else none,
          iscrizioni := [] }
        1000 "c@d.e" "5.6.7.8"
        { id := "id2", nome_squadra := "Y", citta_squadra := "B",
          paese_squadra := "C", nome_capitano := "D", cognome_capitano := "E",
          email_capitano := "c@d.e", telefono_capitano := "3",
          data_nascita_capitano := "2001-01-01", provincia_foggia := "no",
          numero_giocatori := 11, note := none, status := "pending",
          ip_address := none, user_agent := none }).1 =
       [("email:" ++ "c@d.e", 1, 3600000)] ∧
     (handleIscrizione
        { rateLimits := fun k => if k = "email:c@d.e" then
            some { count := 1, window_start := 0, last_request := 0 } else none,
          iscrizioni := [] }
        1000 "c@d.e" "5.6.7.8"
        { id := "id2", nome_squadra := "Y", citta_squadra := "B",
          paese_squadra := "C", nome_capitano := "D", cognome_capitano := "E",
          email_capitano := "c@d.e", telefono_capitano := "3",
          data_nascita_capitano := "2001-01-01", provincia_foggia := "no",
          numero_giocatori := 11, note := none, status := "pending",
          ip_address := none, user_agent := none }).2.1.status = 429) :=
  have hA := claim_C5_amended_gate_sequence
    { rateLimits := fun _ => none, iscrizioni := [] } 0 "a@b.c" "1.2.3.4"
    { id := "id1", nome_squadra := "Z", citta_squadra := "B",
      paese_squadra := "C", nome_capitano := "D", cognome_capitano := "E",
      email_capitano := "a@b.c", telefono_capitano := "2",
      data_nascita_capitano := "2001-01-01", provincia_foggia := "no",
      numero_giocatori := 11, note := none, status := "pending",
      ip_address := none, user_agent := none }
  have hB := claim_C5_amended_gate_sequence
    { rateLimits := fun k => if k = "email:c@d.e" then
        some { count := 1, window_start := 0, last_request := 0 } else none,
      iscrizioni := [] }
    1000 "c@d.e" "5.6.7.8"
    { id := "id2", nome_squadra := "Y", citta_squadra := "B",
      paese_squadra := "C", nome_capitano := "D", cognome_capitano := "E",
      email_capitano := "c@d.e", telefono_capitano := "3",
      data_nascita_capitano := "2001-01-01", provincia_foggia := "no",
      numero_giocatori := 11, note := none, status := "pending",
      ip_address := none, user_agent := none }
  ⟨⟨(hA.2 (by decide)).1, (hA.2 (by decide)).2.2 (by decide)⟩,
   ⟨(hB.1 (by decide)).1, (hB.1 (by decide)).2.2.1⟩⟩

/-- With an empty retry queue, firing the retry timer any number of times
changes nothing. -/
theorem retryLoopAllFail_empty (cfg : AnConfig) (fuel : Nat) (st : AnState)
    (h : st.retryQueue = []) : retryLoopAllFail cfg fuel st = st := by
  cases fuel <;> simp [retryLoopAllFail, h]

/-- Chain lemma for a single event in the retry queue with every delivery
failing: if the event still has `k` retries left
(`retryAttempts = attempts + k`), the retry timer fires `k + 1` more times,
each firing performs one delivery attempt (at `attempts`, `attempts + 1`,
…, `attempts + k`), schedules the next retry after
`retryDelay * (attempts + i)` for the `i`-th re-queue, and the queue ends
empty. -/
theorem retryLoop_single_chain (cfg : AnConfig) :
    ∀ (k : Nat) (ev : AnEvent) (st : AnState) (fuel : Nat),
      st.retryQueue = [ev] → cfg.retryAttempts = ev.attempts + k →
      k + 2 ≤ fuel →
      retryLoopAllFail cfg fuel st =
        { st with
          retryQueue := [],
          sent := st.sent ++ (List.range' ev.attempts (k + 1)).map
            (fun j => { ev with attempts := j }),
          timers := st.timers ++ (List.range' (ev.attempts + 1) k).map
            (fun j => cfg.retryDelay * j) } := by
  intro k
  induction k with
  | zero =>
      intro ev st fuel hq hr hfuel
      obtain ⟨f, rfl⟩ : ∃ f, fuel = f + 1 := ⟨fuel - 1, by omega⟩
      have hne : st.retryQueue.isEmpty = false := by
        rw [hq]
        rfl
      have hdrop : ¬ ev.attempts < cfg.retryAttempts := by omega
      have hstep : retryFailedEvents cfg st (fun _ => false) =
          { st with retryQueue := [], sent := st.sent ++ [ev] } := by
        simp [retryFailedEvents, hq, sendEvent, hdrop]
      rw [retryLoopAllFail, hne]
      simp only [Bool.false_eq_true, if_false, hstep]
      rw [retryLoopAllFail_empty cfg f _ rfl]
      simp [List.range'_succ]
  | succ k ih =>
      intro ev st fuel hq hr hfuel
      obtain ⟨f, rfl⟩ : ∃ f, fuel = f + 1 := ⟨fuel - 1, by omega⟩
      have hne : st.retryQueue.isEmpty = false := by
        rw [hq]
        rfl
      have hlt : ev.attempts < cfg.retryAttempts := by omega
      have hstep : retryFailedEvents cfg st (fun _ => false) =
          { st with
            retryQueue := [{ ev with attempts := ev.attempts + 1 }],
            sent := st.sent ++ [ev],
            timers := st.timers ++ [cfg.retryDelay * (ev.attempts + 1)] } := by
        simp [retryFailedEvents, hq, sendEvent, hlt]
      rw [retryLoopAllFail, hne]
      simp only [Bool.false_eq_true, if_false, hstep]
      rw [ih { ev with attempts := ev.attempts + 1 } _ f rfl (by simp; omega)
          (by omega)]
      simp [List.range'_succ, List.append_assoc]

/-- Claim C6: with every delivery failing, an event entering `sendEvent`
with `attempts = 0` is delivered (a `fetch` is performed) exactly
`retryAttempts + 1` times in total — once per value of `attempts` from 0 to
`retryAttempts`; each failure short of the cap re-queues the event with its
`attempts` field incremented and schedules the redelivery after
`retryDelay * attempts` (with the incremented value), a delay that grows
strictly with the attempt count; once `attempts` has reached
`retryAttempts` the event is dropped and no amount of further timer firings
retries it again. -/
theorem claim_C6_retry_backoff_drop (cfg : AnConfig) (fuel : Nat)
    (ev : AnEvent) (F : AnState)
    (hmaxR : 1 ≤ cfg.retryAttempts) (hd : 0 < cfg.retryDelay)
    (ha : ev.attempts = 0) (hfuel : cfg.retryAttempts + 2 ≤ fuel)
    (hF : F = retryLoopAllFail cfg fuel
        (sendEvent cfg anInit ev false).2) :
    F.sent = (List.range' 0 (cfg.retryAttempts + 1)).map
        (fun j => { ev with attempts := j }) ∧
    F.sent.length = cfg.retryAttempts + 1 ∧
    F.timers = (List.range' 1 cfg.retryAttempts).map
        (fun j => cfg.retryDelay * j) ∧
    F.timers.Pairwise (· < ·) ∧
    F.retryQueue = [] ∧
    (∀ g, retryLoopAllFail cfg g F = F) := by
  have hlt : ev.attempts < cfg.retryAttempts := by omega
  have hq1 : ((sendEvent cfg anInit ev false).2).retryQueue =
      [{ ev with attempts := ev.attempts + 1 }] := by
    simp [sendEvent, anInit, hlt]
  have hchain := retryLoop_single_chain cfg (cfg.retryAttempts - 1)
    { ev with attempts := ev.attempts + 1 } (sendEvent cfg anInit ev false).2
    fuel hq1 (by simp; omega) (by omega)
  rw [hchain] at hF
  have hsent0 : ((sendEvent cfg anInit ev false).2).sent = [ev] := by
    simp [sendEvent, anInit, hlt]
  have htimers0 : ((sendEvent cfg anInit ev false).2).timers =
      [cfg.retryDelay * (ev.attempts + 1)] := by
    simp [sendEvent, anInit, hlt]
  have hk : cfg.retryAttempts - 1 + 1 = cfg.retryAttempts := by omega
  have hsent : F.sent = (List.range' 0 (cfg.retryAttempts + 1)).map
      (fun j => { ev with attempts := j }) := by
    rw [hF]
    simp only [hsent0, ha, hk]
    rw [List.range'_succ]
    simp [← ha]
  have htimers : F.timers = (List.range' 1 cfg.retryAttempts).map
      (fun j => cfg.retryDelay * j) := by
    rw [hF]
    simp only [htimers0, ha, hk]
    cases hcase : cfg.retryAttempts with
    | zero => omega
    | succ n =>
        rw [List.range'_succ]
        simp
  refine ⟨hsent, ?_, htimers, ?_, ?_, ?_⟩
  · rw [hsent]
    simp
  · rw [htimers]
    exact (List.pairwise_lt_range' 1 cfg.retryAttempts 1 (by omega)).map
      (fun j => cfg.retryDelay * j)
      (fun a b hab => by exact mul_lt_mul_of_pos_left hab hd)
  · rw [hF]
  · intro g
    exact retryLoopAllFail_empty cfg g F (by rw [hF])

/-- Witness for C6 with the default configuration (`retryAttempts = 3`,
`retryDelay = 1000`): four delivery attempts in total and scheduled delays
1000, 2000, 3000. -/
theorem claim_C6_retry_backoff_drop_witness :
    (1 ≤ 3 ∧ 0 < 1000) ∧
    (retryLoopAllFail { retryAttempts := 3, retryDelay := 1000 } 5
        (sendEvent { retryAttempts := 3, retryDelay := 1000 } anInit
          { endpoint := "event", data := "p", attempts := 0, createdAt := 0 }
          false).2).sent.length = 3 + 1 ∧
    (retryLoopAllFail { retryAttempts := 3, retryDelay := 1000 } 5
        (sendEvent { retryAttempts := 3, retryDelay := 1000 } anInit
          { endpoint := "event", data := "p", attempts := 0, createdAt := 0 }
          false).2).timers =
      (List.range' 1 3).map (fun j => 1000 * j) :=
  have h := claim_C6_retry_backoff_drop
    { retryAttempts := 3, retryDelay := 1000 } 5
    { endpoint := "event", data := "p", attempts := 0, createdAt := 0 } _
    (by decide) (by decide) rfl (by decide) rfl
  ⟨⟨by decide, by decide⟩, h.2.1, h.2.2.1⟩

/-- Claim C7 counterexample: a delivery fails while online (scheduling a
retry timer), the client then goes offline, and the pending timer fires:
`retryFailedEvents` does not consult `isOnline`, so a delivery attempt (a
`fetch`, logged in `sent`) IS performed for a retry-queued event while the
client reports itself offline — contradicting "no delivery attempt is ever
performed for any queued or retry-queued event" while offline. -/
theorem claim_C7_offline_retry_counterexample :
    (handleOffline (sendEvent ({} : AnConfig) anInit
        { endpoint := "event", data := "d", attempts := 0, createdAt := 0 }
        false).2).isOnline = false ∧
    (handleOffline (sendEvent ({} : AnConfig) anInit
        { endpoint := "event", data := "d", attempts := 0, createdAt := 0 }
        false).2).retryQueue ≠ [] ∧
    (retryFailedEvents ({} : AnConfig)
        (handleOffline (sendEvent ({} : AnConfig) anInit
          { endpoint := "event", data := "d", attempts := 0, createdAt := 0 }
          false).2)
        (fun _ => false)).sent.length =
      (handleOffline (sendEvent ({} : AnConfig) anInit
          { endpoint := "event", data := "d", attempts := 0, createdAt := 0 }
          false).2).sent.length + 1 := by
  refine ⟨rfl, by decide, rfl⟩

/-- Claim C7, amended: while the client reports itself offline, `flushQueue`
performs no delivery attempt and leaves the state untouched, and enqueuing
accumulates events without any delivery attempt (even when the batch-size
flush fires, the offline guard stops it); retry timers already scheduled
are NOT suppressed while offline.  When connectivity returns, the online
handler triggers a flush plus a retry pass, and (with delivery succeeding)
every event enqueued while offline is delivered exactly once: three events
queued offline are flushed as exactly those three sends, leaving both
queues empty. -/
theorem claim_C7_amended_offline_accumulate_then_flush :
    (∀ (cfg : AnConfig) (st : AnState) (ok : AnEvent → Bool),
        st.isOnline = false → flushQueue cfg st ok = st) ∧
    (∀ (cfg : AnConfig) (st : AnState) (endpoint payload : String)
        (now : Int) (ok : AnEvent → Bool),
        st.isOnline = false →
        (queueEvent cfg st endpoint payload now ok).eventQueue =
          st.eventQueue ++ [{ endpoint := endpoint, data := payload,
                              attempts := 0, createdAt := now }] ∧
        (queueEvent cfg st endpoint payload now ok).sent = st.sent) ∧
    ((handleOnline ({} : AnConfig)
        (queueEvent ({} : AnConfig)
          (queueEvent ({} : AnConfig)
            (queueEvent ({} : AnConfig) (handleOffline anInit)
              "pageview" "p1" 1 (fun _ => true))
            "event" "p2" 2 (fun _ => true))
          "event" "p3" 3 (fun _ => true))
        (fun _ => true)).sent =
      [{ endpoint := "pageview", data := "p1", attempts := 0, createdAt := 1 },
       { endpoint := "event", data := "p2", attempts := 0, createdAt := 2 },
       { endpoint := "event", data := "p3", attempts := 0, createdAt := 3 }] ∧
     (handleOnline ({} : AnConfig)
        (queueEvent ({} : AnConfig)
          (queueEvent ({} : AnConfig)
            (queueEvent ({} : AnConfig) (handleOffline anInit)
              "pageview" "p1" 1 (fun _ => true))
            "event" "p2" 2 (fun _ => true))
          "event" "p3" 3 (fun _ => true))
        (fun _ => true)).eventQueue = [] ∧
     (handleOnline ({} : AnConfig)
        (queueEvent ({} : AnConfig)
          (queueEvent ({} : AnConfig)
            (queueEvent ({} : AnConfig) (handleOffline anInit)
              "pageview" "p1" 1 (fun _ => true))
            "event" "p2" 2 (fun _ => true))
          "event" "p3" 3 (fun _ => true))
        (fun _ => true)).retryQueue = []) := by
  refine ⟨?_, ?_, by decide, by decide, by decide⟩
  · intro cfg st ok h
    simp [flushQueue, h]
  · intro cfg st endpoint payload now ok h
    by_cases hbs : cfg.batchSize ≤ st.eventQueue.length + 1
    · simp [queueEvent, hbs, flushQueue, h]
    · simp [queueEvent, hbs]

/-- Witness for the amended C7: an offline flush is a no-op and an offline
enqueue accumulates without sending, at a concrete offline state. -/
theorem claim_C7_amended_offline_accumulate_then_flush_witness :
    (flushQueue ({} : AnConfig)
        (queueEvent ({} : AnConfig) (handleOffline anInit) "event" "x" 0
          (fun _ => true))
        (fun _ => true) =
      queueEvent ({} : AnConfig) (handleOffline anInit) "event" "x" 0
        (fun _ => true)) ∧
    (queueEvent ({} : AnConfig) (handleOffline anInit) "event" "x" 0
        (fun _ => true)).eventQueue =
      (handleOffline anInit).eventQueue ++
        [{ endpoint := "event", data := "x", attempts := 0, createdAt := 0 }] ∧
    (queueEvent ({} : AnConfig) (handleOffline anInit) "event" "x" 0
        (fun _ => true)).sent = (handleOffline anInit).sent :=
  ⟨claim_C7_amended_offline_accumulate_then_flush.1 ({} : AnConfig)
      (queueEvent ({} : AnConfig) (handleOffline anInit) "event" "x" 0
        (fun _ => true)) (fun _ => true) (by decide),
   (claim_C7_amended_offline_accumulate_then_flush.2.1 ({} : AnConfig)
      (handleOffline anInit) "event" "x" 0 (fun _ => true) rfl).1,
   (claim_C7_amended_offline_accumulate_then_flush.2.1 ({} : AnConfig)
      (handleOffline anInit) "event" "x" 0 (fun _ => true) rfl).2⟩

/-- Claim C8 counterexample: `setupUnloadTracking` installs no sent-once
guard, so a `visibilitychange`-to-hidden occurrence followed by a
`beforeunload` occurrence sends the final session summary TWICE (two
`Session`/`End` beacons), contradicting "never more than once across any
sequence of visibilitychange-to-hidden and beforeunload occurrences". -/
theorem claim_C8_final_beacon_twice_counterexample :
    ((handlePageEvent (handlePageEvent anInit .visibilityHidden)
        .beforeUnload).beacons.countP isSessionEnd) = 2 ∧ (2 : Nat) ≠ 1 := by
  refine ⟨rfl, by decide⟩

/-- Claim C8, amended: every page-hide and every unload occurrence triggers
the final-summary send — the `Session`/`End` beacon count grows by exactly
the number of hide/unload occurrences (so it is never zero when one occurs,
but there is no once-per-lifetime guard: repeated occurrences send it
repeatedly, each send also emitting the companion `Engagement`/`Score`
beacon) — and the final data always goes through the beacon path: the
event queue, the retry queue and the `fetch` log are untouched. -/
theorem claim_C8_amended_beacon_per_occurrence :
    ∀ (evs : List PageEvent) (st : AnState),
      (evs.foldl handlePageEvent st).beacons.countP isSessionEnd =
        st.beacons.countP isSessionEnd + evs.countP isHideOrUnload ∧
      (evs.foldl handlePageEvent st).eventQueue = st.eventQueue ∧
      (evs.foldl handlePageEvent st).retryQueue = st.retryQueue ∧
      (evs.foldl handlePageEvent st).sent = st.sent := by
  intro evs
  induction evs with
  | nil =>
      intro st
      simp
  | cons e evs ih =>
      intro st
      obtain ⟨h1, h2, h3, h4⟩ := ih (handlePageEvent st e)
      rw [List.foldl_cons] at *
      cases e with
      | visibilityHidden =>
          refine ⟨?_, ?_, ?_, ?_⟩
          · rw [h1]
            simp [handlePageEvent, sendFinalData, sendBeacon, isSessionEnd,
                  isHideOrUnload, List.countP_append, List.countP_cons]
            omega
          · rw [h2]
            simp [handlePageEvent, sendFinalData, sendBeacon]
          · rw [h3]
            simp [handlePageEvent, sendFinalData, sendBeacon]
          · rw [h4]
            simp [handlePageEvent, sendFinalData, sendBeacon]
      | visibilityVisible =>
          refine ⟨?_, h2, h3, h4⟩
          rw [h1]
          simp [handlePageEvent, isHideOrUnload, List.countP_cons]
      | beforeUnload =>
          refine ⟨?_, ?_, ?_, ?_⟩
          · rw [h1]
            simp [handlePageEvent, sendFinalData, sendBeacon, isSessionEnd,
                  isHideOrUnload, List.countP_append, List.countP_cons]
            omega
          · rw [h2]
            simp [handlePageEvent, sendFinalData, sendBeacon]
          · rw [h3]
            simp [handlePageEvent, sendFinalData, sendBeacon]
          · rw [h4]
            simp [handlePageEvent, sendFinalData, sendBeacon]

/-- Claim C9 counterexample: `checkRateLimit` is a separate read
(`getRateLimit`) followed by a separate write, with no transaction.  If the
read and write steps of two calls on the same key interleave (read-A,
read-B, write-A, write-B) on an expired record, both calls take the reset
path: both are allowed and the final count is 1, whereas the same two calls
run sequentially leave count 2 — the interleaved schedule loses an update,
so the resulting count does NOT reflect both calls. -/
theorem claim_C9_lost_update_counterexample :
    (interleavedTwo
        (fun k => if k = "k" then
          some { count := 1, window_start := 0, last_request := 0 } else none)
        2000 2000 "k" 5 1000).1.allowed = true ∧
    (interleavedTwo
        (fun k => if k = "k" then
          some { count := 1, window_start := 0, last_request := 0 } else none)
        2000 2000 "k" 5 1000).2.1.allowed = true ∧
    ((interleavedTwo
        (fun k => if k = "k" then
          some { count := 1, window_start := 0, last_request := 0 } else none)
        2000 2000 "k" 5 1000).2.2 "k") =
      some { count := 1, window_start := 2000, last_request := 0 } ∧
    ((checkRateLimit
        (checkRateLimit
          (fun k => if k = "k" then
            some { count := 1, window_start := 0, last_request := 0 } else none)
          2000 "k" 5 1000).2
        2000 "k" 5 1000).2 "k") =
      some { count := 2, window_start := 2000, last_request := 2000 } ∧
    some ({ count := 1, window_start := 2000, last_request := 0 } :
        RateLimitRecord) ≠
      some ({ count := 2, window_start := 2000, last_request := 2000 } :
        RateLimitRecord) := by
  refine ⟨rfl, rfl, rfl, rfl, by decide⟩

/-- Claim C9, amended: the check-then-update sequence of `checkRateLimit`
is NOT a single atomic upsert: it decomposes exactly into a separate read
of the key followed by one dependent write (`rlDecide` on the value read,
then `rlApply` of the chosen SQL statement).  Two calls run to completion
one after the other (as the synchronous single-threaded runtime does)
leave a count reflecting both calls — here 2 on a reset-then-bump pair —
but the atomicity comes from the runtime's sequencing, not from the store
operations; an interleaving of the read/write steps can lose an update
(see the counterexample). -/
theorem claim_C9_amended_read_then_write :
    (∀ (s : RLStore) (now : Int) (k : String) (m : Nat) (w : Int),
        checkRateLimit s now k m w =
          ((rlDecide (s k) now m w).1,
           rlApply s k (rlDecide (s k) now m w).2)) ∧
    ((checkRateLimit
        (checkRateLimit
          (fun k => if k = "k" then
            some { count := 1, window_start := 0, last_request := 0 } else none)
          2000 "k" 5 1000).2
        2000 "k" 5 1000).2 "k") =
      some { count := 2, window_start := 2000, last_request := 2000 } := by
  refine ⟨?_, rfl⟩
  intro s now k m w
  cases hk : s k with
  | none => simp [checkRateLimit, rlDecide, rlApply, hk]
  | some r =>
      by_cases h1 : r.window_start < now - w
      · simp [checkRateLimit, rlDecide, rlApply, hk, h1]
      · by_cases h2 : m ≤ r.count
        · simp [checkRateLimit, rlDecide, rlApply, hk, h1, h2]
        · simp [checkRateLimit, rlDecide, rlApply, hk, h1, h2]
